import Mathlib

set_option maxHeartbeats 1000000

/- Shallow embedding of deploydevices.py, a CLI tool that claims Meraki devices
   into an organization, derives a network type from the claimed device models,
   creates (or reuses) a network, claims the devices into it and binds the
   network to a configuration template.

   The HTTP transport is modelled by a Server value describing the backend the
   script talks to: each GET endpoint is a pure read of that value, each POST
   and PUT is recorded in a trace of ApiCall values together with its modelled
   backend effect. Every function of the script is embedded as a pure function
   of the Server value, keeping the source function names. -/

/-- Python string slice s[:n], used by the script as record[:2]. -/
def strTake (s : String) (n : Nat) : String :=
  String.mk (s.data.take n)

def pySplitAux (sep : Char) : List Char → List Char → List String
  | [], acc => [String.mk acc.reverse]
  | c :: cs, acc =>
    if c = sep then String.mk acc.reverse :: pySplitAux sep cs []
    else pySplitAux sep cs (c :: acc)

/-- Python str.split with an explicit single-character separator: consecutive
    separators yield empty fields, the empty string yields one empty field. -/
def pySplit (s : String) (sep : Char) : List String :=
  pySplitAux sep s.data []

/-- Record of the organizations listing endpoint: fields name and id. -/
structure OrgRecord where
  name : String
  id : String
  deriving DecidableEq

/-- Record of the networks listing endpoint: fields id and name. -/
structure NwRecord where
  id : String
  name : String
  deriving DecidableEq

/-- Record of the configuration templates listing endpoint. -/
structure TemplateRecord where
  name : String
  id : String
  deriving DecidableEq

/-- Record of the organization inventory listing endpoint; only the serial and
    model fields are read by the script, so only those are modelled. -/
structure InvRecord where
  serial : String
  model : String
  deriving DecidableEq

/-- Device record returned by the per-device lookups; the script reads only the
    serial and model fields of the JSON object, so only those are modelled. -/
structure DeviceInfo where
  serial : String
  model : String
  deriving DecidableEq

/-- Device present in a network, for the network device lookup endpoint. -/
structure NwDevice where
  nwid : String
  serial : String
  model : String
  deriving DecidableEq

/-- One POST or PUT request issued by the script. GET requests are pure reads
    and are not traced. -/
inductive ApiCall where
  | claimDeviceOrg (orgid serial : String)
  | claimLicenseOrg (orgid licensekey : String)
  | createNetwork (orgid name nwtype timeZone tags : String)
  | claimDeviceNw (nwid serial : String)
  | setDeviceData (nwid serial field value movevalue : String)
  | bindNetwork (nwid templateid autobindvalue : String)
  deriving DecidableEq

/-- Outcome of a run of the script: sys.exit with a code, or falling off the
    end of main (the final End-of-script message, process status 0). -/
inductive Outcome where
  | exited (code : Nat)
  | finished
  deriving DecidableEq

/-- State of the backend the script talks to. The xxOk booleans say whether the
    corresponding request comes back with a success status; the claimable map
    says which serials an organization claim request actually adds to the
    inventory, and with which model string. -/
structure Server where
  orgsOk : Bool
  orgs : List OrgRecord
  snmpOk : Bool
  snmpHost : String
  networksOk : Bool
  networks : List NwRecord
  createOk : Bool
  nextNwId : Nat
  templatesOk : Bool
  templates : List TemplateRecord
  inventoryOk : Bool
  inventory : List InvRecord
  claimable : String → Option String
  nwDevices : List NwDevice
  setOk : Bool
  bindOk : Bool

/-- Embeds getorgid: list organizations, return the id of the first record with
    a matching name, the string null on non-success status or no match. -/
def getorgid (s : Server) (orgname : String) : String :=
  if s.orgsOk then
    match s.orgs.find? (fun r => r.name == orgname) with
    | some r => r.id
    | none => "null"
  else "null"

/-- Embeds getshardurl: return the hostname field of the snmp endpoint, the
    string null on non-success status. -/
def getshardurl (s : Server) (orgid : String) : String :=
  if s.snmpOk then s.snmpHost else "null"

/-- Embeds getnwid: list networks, return the id of the first record with a
    matching name, the string null on non-success status or no match. -/
def getnwid (s : Server) (nwname : String) : String :=
  if s.networksOk then
    match s.networks.find? (fun r => r.name == nwname) with
    | some r => r.id
    | none => "null"
  else "null"

/-- Embeds gettemplateid: list configuration templates, return the id of the
    first record with a matching name, the string null otherwise. -/
def gettemplateid (s : Server) (tname : String) : String :=
  if s.templatesOk then
    match s.templates.find? (fun r => r.name == tname) with
    | some r => r.id
    | none => "null"
  else "null"

/-- Network parameters assembled by main before network creation. -/
structure NwParams where
  name : String
  timeZone : String
  tags : String
  organizationId : String
  type : String
  deriving DecidableEq

/-- Backend effect of a successful network creation POST: a network with a
    fresh id and the requested name is appended. On createOk false the POST has
    no effect (the script never inspects the response of this POST). -/
def serverCreateNetwork (s : Server) (nwname : String) : Server :=
  if s.createOk then
    { s with networks := s.networks ++ [⟨"N" ++ Nat.repr s.nextNwId, nwname⟩],
             nextNwId := s.nextNwId + 1 }
  else s

/-- Embeds createnw: re-check that no network of the same name exists (skip
    with the null sentinel if one does), remap the combined type, refuse the
    systems manager type with the null sentinel, otherwise POST the creation
    and return ok without inspecting the response. -/
def createnw (orgid : String) (s : Server) (nwdata : NwParams) : String × Server × List ApiCall :=
  let getnwresult := getnwid s nwdata.name
  if getnwresult ≠ "null" then ("null", s, [])
  else
    let nwtype := if nwdata.type = "combined" then "wireless switch appliance" else nwdata.type
    if nwtype ≠ "systems manager" then
      ("ok", serverCreateNetwork s nwdata.name,
       [ApiCall.createNetwork orgid nwdata.name nwtype nwdata.timeZone nwdata.tags])
    else ("null", s, [])

/-- Embeds bindnw: POST the bind request with autoBind rendered as the string
    true or false, return ok on success status, the null sentinel otherwise. -/
def bindnw (s : Server) (nwid templateid : String) (autobind : Bool) : String × List ApiCall :=
  let autobindvalue := if autobind then "true" else "false"
  ((if s.bindOk then "ok" else "null"), [ApiCall.bindNetwork nwid templateid autobindvalue])

/-- Embeds claimdeviceorg: POST an organization-level device claim; the script
    ignores the response. The backend effect is given by Server.claimable. -/
def claimdeviceorg (s : Server) (orgid serial : String) : Server × List ApiCall :=
  (match s.claimable serial with
   | some model => { s with inventory := s.inventory ++ [⟨serial, model⟩] }
   | none => s,
   [ApiCall.claimDeviceOrg orgid serial])

/-- Embeds claimlicenseorg: POST a license claim; the script ignores the
    response and no backend effect is relevant to the modelled reads. -/
def claimlicenseorg (orgid licensekey : String) : List ApiCall :=
  [ApiCall.claimLicenseOrg orgid licensekey]

/-- Embeds claimdevice: POST a network-level device claim; the script ignores
    the response. The modelled backend moves a device that is present in the
    organization inventory into the network. -/
def claimdevice (s : Server) (nwid serial : String) : Server × List ApiCall :=
  (match s.inventory.find? (fun r => r.serial == serial) with
   | some r => { s with nwDevices := s.nwDevices ++ [⟨nwid, serial, r.model⟩] }
   | none => s,
   [ApiCall.claimDeviceNw nwid serial])

/-- Embeds getdeviceinfo: GET a single device of a network; on non-success
    status (in particular when the device is not in the network) the lone
    sentinel record with serial and model null is returned. -/
def getdeviceinfo (s : Server) (nwid serial : String) : DeviceInfo :=
  match s.nwDevices.find? (fun d => d.nwid == nwid && d.serial == serial) with
  | some d => ⟨d.serial, d.model⟩
  | none => ⟨"null", "null"⟩

/-- Embeds setdevicedata: PUT one field of a device record, with the
    moveMapMarker flag rendered as the string true or false; returns ok or the
    null sentinel, which main never inspects. -/
def setdevicedata (s : Server) (nwid devserial field value : String) (movemarker : Bool) : String × List ApiCall :=
  let movevalue := if movemarker then "true" else "false"
  ((if s.setOk then "ok" else "null"), [ApiCall.setDeviceData nwid devserial field value movevalue])

/-- Embeds getorgdeviceinfo: GET the whole organization inventory; on
    non-success status return the sentinel record with serial and model null,
    otherwise scan all records for the serial (the last match wins, as the
    source loop keeps overwriting) and return the sentinel when none match. -/
def getorgdeviceinfo (s : Server) (devserial : String) : DeviceInfo :=
  if s.inventoryOk then
    match s.inventory.foldl (fun acc r => if r.serial == devserial then some r else acc)
        (none : Option InvRecord) with
    | some r => ⟨r.serial, r.model⟩
    | none => ⟨"null", "null"⟩
  else ⟨"null", "null"⟩

/-- Command line arguments of main after getopt parsing; each missing option
    keeps the default value null, exactly as in the source. -/
structure Args where
  apikey : String
  orgname : String
  serial : String
  nwname : String
  template : String
  modexisting : String
  address : String
  nwtags : String
  deriving DecidableEq

/-- Embeds the per-serial claim-and-classify loop of main: claim each serial
    into the organization, look it up in the inventory, issue a license claim
    when the lookup returns the null sentinel serial, and append the looked-up
    model (the sentinel model null when unresolved) to the model list. -/
def classifyLoop (orgid : String) (s : Server) : List String → Server × List String × List ApiCall
  | [] => (s, [], [])
  | serial :: rest =>
    let c := claimdeviceorg s orgid serial
    let deviceinfo := getorgdeviceinfo c.1 serial
    let lic := if deviceinfo.serial = "null" then claimlicenseorg orgid serial else []
    let r := classifyLoop orgid c.1 rest
    (r.1, deviceinfo.model :: r.2.1, c.2 ++ lic ++ r.2.2)

/-- Device type flags of main, dict devicetypes with keys mx, ms, mr. -/
structure DeviceTypes where
  mx : Bool
  ms : Bool
  mr : Bool
  deriving DecidableEq

/-- Embeds the body of the device-type loop of main: the first two characters
    of the model string select which flag is set, MX or Z1 for mx, MS for ms,
    MR for mr, via an elif chain. -/
def deviceTypesStep (dt : DeviceTypes) (record : String) : DeviceTypes :=
  if strTake record 2 = "MX" ∨ strTake record 2 = "Z1" then { dt with mx := true }
  else if strTake record 2 = "MS" then { dt with ms := true }
  else if strTake record 2 = "MR" then { dt with mr := true }
  else dt

/-- Embeds the device-type loop of main over the whole model list. -/
def deviceTypesOf (models : List String) : DeviceTypes :=
  models.foldl deviceTypesStep ⟨false, false, false⟩

/-- Embeds the network type string builder of main: append wireless when mr is
    set, append a space whenever the string built so far is nonempty, append
    switch when ms is set, append a space again whenever nonempty, append
    appliance when mx is set. -/
def buildNetworkTypeString (mr ms mx : Bool) : String :=
  let s1 := if mr then "" ++ "wireless" else ""
  let s2 := if s1.length > 0 then s1 ++ " " else s1
  let s3 := if ms then s2 ++ "switch" else s2
  let s4 := if s3.length > 0 then s3 ++ " " else s3
  if mx then s4 ++ "appliance" else s4

/-- Embeds the valid-serials filter of main: keep serial i exactly when the
    model string at index i equals one of the literals mr, ms, mx. -/
def validserialsOf : List String → List String → List String
  | serial :: ss, model :: ms =>
    if model = "mr" ∨ model = "ms" ∨ model = "mx" then serial :: validserialsOf ss ms
    else validserialsOf ss ms
  | _, _ => []

/-- Embeds the enrollment loop of main: claim each valid serial into the
    network, read the device back (exit 2 when the read returns the sentinel),
    write the hostname field, and write the address field when one was given. -/
def enrollLoop (s : Server) (nwid address : String) : List String → Option Server × List ApiCall
  | [] => (some s, [])
  | devserial :: rest =>
    let c := claimdevice s nwid devserial
    let deviceinfo := getdeviceinfo c.1 nwid devserial
    if deviceinfo.serial = "null" then (none, c.2)
    else
      let hostname := deviceinfo.model ++ "_" ++ devserial
      let st := setdevicedata c.1 nwid devserial "name" hostname false
      let ad := if address ≠ "null" then (setdevicedata c.1 nwid devserial "address" address true).2 else []
      let r := enrollLoop c.1 nwid address rest
      (r.1, c.2 ++ st.2 ++ ad ++ r.2)

/-- Embeds the tail of main from the valid-serials filter on: enrollment loop
    (exit 2 when a device read fails) followed by the template bind, whose
    failure is fatal only when the ignore-existing mode is not set. -/
def finishRun (s : Server) (a : Args) (nwid templateid : String) (serials models : List String) (callsSoFar : List ApiCall) : Outcome × List ApiCall :=
  let validserials := validserialsOf serials models
  let en := enrollLoop s nwid a.address validserials
  match en.1 with
  | none => (Outcome.exited 2, callsSoFar ++ en.2)
  | some s3 =>
    let dt := deviceTypesOf models
    let b := bindnw s3 nwid templateid dt.ms
    if b.1 = "null" ∧ a.modexisting ≠ "ignore_error" then (Outcome.exited 2, callsSoFar ++ en.2 ++ b.2)
    else (Outcome.finished, callsSoFar ++ en.2 ++ b.2)

/-- Embeds main after getopt parsing: required-argument check, organization and
    shard resolution, early exit when the network already exists and the
    ignore-existing mode is not set, template resolution, classification,
    network type derivation, network creation when absent, then finishRun. -/
def mainRun (s : Server) (a : Args) : Outcome × List ApiCall :=
  if a.apikey = "null" ∨ a.orgname = "null" ∨ a.serial = "null" ∨ a.nwname = "null" ∨ a.template = "null" then
    (Outcome.exited 2, [])
  else
  let orgid := getorgid s a.orgname
  if orgid = "null" then (Outcome.exited 2, [])
  else
  let shardurl := getshardurl s orgid
  if shardurl = "null" then (Outcome.exited 2, [])
  else
  let nwid0 := getnwid s a.nwname
  if nwid0 ≠ "null" ∧ a.modexisting ≠ "ignore_error" then (Outcome.exited 2, [])
  else
  let templateid := gettemplateid s a.template
  if templateid = "null" then (Outcome.exited 2, [])
  else
  let serials := pySplit a.serial ' '
  let cl := classifyLoop orgid s serials
  let models := cl.2.1
  let dt := deviceTypesOf models
  let nwtypestring := buildNetworkTypeString dt.mr dt.ms dt.mx
  let nwtags := if a.nwtags ≠ "null" then a.nwtags else ""
  let nwparams : NwParams := ⟨a.nwname, "Europe/Helsinki", nwtags, orgid, nwtypestring⟩
  if nwid0 = "null" then
    let cr := createnw orgid cl.1 nwparams
    if cr.1 = "null" then (Outcome.exited 2, cl.2.2 ++ cr.2.2)
    else
      let nwid1 := getnwid cr.2.1 a.nwname
      if nwid1 = "null" then (Outcome.exited 2, cl.2.2 ++ cr.2.2)
      else finishRun cr.2.1 a nwid1 templateid serials models (cl.2.2 ++ cr.2.2)
  else finishRun cl.1 a nwid0 templateid serials models cl.2.2

/-- Network provisioning step of the run under the ignore-existing policy:
    the name lookup of main (which under this policy never exits), then the
    creation block of main (createnw followed by the re-lookup of the id).
    A none outcome corresponds to main exiting with code 2. -/
def ensureNetwork (orgid : String) (s : Server) (nwdata : NwParams) : Option String × Server × List ApiCall :=
  let nwid := getnwid s nwdata.name
  if nwid = "null" then
    let cr := createnw orgid s nwdata
    if cr.1 = "null" then (none, cr.2.1, cr.2.2)
    else
      let nwid2 := getnwid cr.2.1 nwdata.name
      if nwid2 = "null" then (none, cr.2.1, cr.2.2)
      else (some nwid2, cr.2.1, cr.2.2)
  else (some nwid, s, [])

/-- Model list computed by the classification loop of a run of main. -/
def runModels (s : Server) (a : Args) : List String :=
  (classifyLoop (getorgid s a.orgname) s (pySplit a.serial ' ')).2.1

/-- Server state after the organization-level claims of a list of serials. -/
def orgClaimState (s : Server) (serials : List String) : Server :=
  serials.foldl (fun t serial => (claimdeviceorg t "" serial).1) s

def isClaimDeviceNw : ApiCall → Bool
  | ApiCall.claimDeviceNw _ _ => true
  | _ => false

def isCreateNetwork : ApiCall → Bool
  | ApiCall.createNetwork _ _ _ _ _ => true
  | _ => false

/-- Scenario backend: organization MyOrg with id O1, template Tmpl with id T1,
    no pre-existing network, all calls succeed, and the two scenario serials
    claim to devices with models MR34-HW and MS120-8. -/
def scenarioClaimable : String → Option String :=
  fun serial =>
    if serial = "MR34-AAAA" then some "MR34-HW"
    else if serial = "MS120-BBBB" then some "MS120-8" else none

def scenarioServer : Server :=
  { orgsOk := true, orgs := [⟨"MyOrg", "O1"⟩], snmpOk := true, snmpHost := "shard1",
    networksOk := true, networks := [], createOk := true, nextNwId := 0,
    templatesOk := true, templates := [⟨"Tmpl", "T1"⟩], inventoryOk := true, inventory := [],
    claimable := scenarioClaimable, nwDevices := [], setOk := true, bindOk := true }

def scenarioArgs : Args :=
  { apikey := "KEY", orgname := "MyOrg", serial := "MR34-AAAA MS120-BBBB", nwname := "Branch1",
    template := "Tmpl", modexisting := "null", address := "null", nwtags := "null" }

/-- Scenario backend with a pre-existing network named Branch1. -/
def existingNwServer : Server :=
  { scenarioServer with networks := [⟨"N9", "Branch1"⟩] }

/-- Scenario backend whose bind request fails. -/
def bindFailServer : Server :=
  { scenarioServer with bindOk := false }

/-- Scenario arguments with the ignore-existing mode set. -/
def ignoreArgs : Args :=
  { scenarioArgs with modexisting := "ignore_error" }

/-- Scenario backend whose inventory listing fails. -/
def invFailServer : Server :=
  { scenarioServer with inventoryOk := false }

/-- Network parameters with the systems manager type. -/
def smParams : NwParams :=
  ⟨"Branch1", "Europe/Helsinki", "", "O1", "systems manager"⟩

/-- Network parameters of the scenario creation. -/
def plainParams : NwParams :=
  ⟨"Branch1", "Europe/Helsinki", "", "O1", "wireless switch"⟩

theorem claimdeviceorg_snd (s : Server) (o serial : String) :
    (claimdeviceorg s o serial).2 = [ApiCall.claimDeviceOrg o serial] := rfl

theorem claimdevice_snd (s : Server) (nwid serial : String) :
    (claimdevice s nwid serial).2 = [ApiCall.claimDeviceNw nwid serial] := rfl

theorem setdevicedata_snd (s : Server) (nwid devserial field value : String) (m : Bool) :
    (setdevicedata s nwid devserial field value m).2 =
      [ApiCall.setDeviceData nwid devserial field value (if m then "true" else "false")] := rfl

theorem bindnw_snd (s : Server) (nwid templateid : String) (autobind : Bool) :
    (bindnw s nwid templateid autobind).2 =
      [ApiCall.bindNetwork nwid templateid (if autobind then "true" else "false")] := rfl

theorem claimdeviceorg_bindOk (s : Server) (o serial : String) :
    (claimdeviceorg s o serial).1.bindOk = s.bindOk := by
  unfold claimdeviceorg
  cases s.claimable serial <;> rfl

theorem claimdeviceorg_inventoryOk (s : Server) (o serial : String) :
    (claimdeviceorg s o serial).1.inventoryOk = s.inventoryOk := by
  unfold claimdeviceorg
  cases s.claimable serial <;> rfl

theorem claimdevice_bindOk (s : Server) (nwid serial : String) :
    (claimdevice s nwid serial).1.bindOk = s.bindOk := by
  unfold claimdevice
  cases s.inventory.find? (fun r => r.serial == serial) <;> rfl

theorem classifyLoop_bindOk (o : String) : ∀ (l : List String) (s : Server),
    (classifyLoop o s l).1.bindOk = s.bindOk := by
  intro l
  induction l with
  | nil => intro s; rfl
  | cons x xs ih =>
    intro s
    simp only [classifyLoop]
    rw [ih, claimdeviceorg_bindOk]

theorem classifyLoop_length (o : String) : ∀ (l : List String) (s : Server),
    (classifyLoop o s l).2.1.length = l.length := by
  intro l
  induction l with
  | nil => intro s; rfl
  | cons x xs ih =>
    intro s
    simp only [classifyLoop, List.length_cons]
    rw [ih]

theorem classifyLoop_no_bind (o : String) : ∀ (l : List String) (s : Server) (n t ab : String),
    ApiCall.bindNetwork n t ab ∉ (classifyLoop o s l).2.2 := by
  intro l
  induction l with
  | nil => intro s n t ab h; exact absurd h (List.not_mem_nil _)
  | cons x xs ih =>
    intro s n t ab h
    simp only [classifyLoop] at h
    rcases List.mem_append.mp h with h1 | h1
    · rcases List.mem_append.mp h1 with h2 | h2
      · rw [claimdeviceorg_snd] at h2
        simp at h2
      · by_cases hd : (getorgdeviceinfo (claimdeviceorg s o x).1 x).serial = "null"
        · rw [if_pos hd] at h2
          have h3 : ApiCall.bindNetwork n t ab ∈ [ApiCall.claimLicenseOrg o x] := h2
          simp at h3
        · rw [if_neg hd] at h2
          exact absurd h2 (List.not_mem_nil _)
    · exact ih _ n t ab h1

theorem createnw_bindOk (o : String) (s : Server) (p : NwParams) :
    (createnw o s p).2.1.bindOk = s.bindOk := by
  unfold createnw serverCreateNetwork
  by_cases h1 : getnwid s p.name ≠ "null" <;>
    by_cases h2 : (if p.type = "combined" then "wireless switch appliance" else p.type) ≠ "systems manager" <;>
      by_cases h3 : s.createOk <;> simp [h1, h2, h3]

theorem createnw_no_bind (o : String) (s : Server) (p : NwParams) (n t ab : String) :
    ApiCall.bindNetwork n t ab ∉ (createnw o s p).2.2 := by
  unfold createnw
  by_cases h1 : getnwid s p.name ≠ "null" <;>
    by_cases h2 : (if p.type = "combined" then "wireless switch appliance" else p.type) ≠ "systems manager" <;>
      simp [h1, h2]

theorem createnw_count (o : String) (s : Server) (p : NwParams) :
    ((createnw o s p).2.2).countP isCreateNetwork ≤ 1 := by
  unfold createnw
  by_cases h1 : getnwid s p.name ≠ "null" <;>
    by_cases h2 : (if p.type = "combined" then "wireless switch appliance" else p.type) ≠ "systems manager" <;>
      simp [h1, h2, List.countP_cons, List.countP_nil, isCreateNetwork]

theorem enrollLoop_bindOk : ∀ (l : List String) (s : Server) (nwid addr : String) (s3 : Server),
    (enrollLoop s nwid addr l).1 = some s3 → s3.bindOk = s.bindOk := by
  intro l
  induction l with
  | nil =>
    intro s nwid addr s3 h
    simp only [enrollLoop, Option.some.injEq] at h
    rw [← h]
  | cons d rest ih =>
    intro s nwid addr s3 h
    simp only [enrollLoop] at h
    by_cases hd : (getdeviceinfo (claimdevice s nwid d).1 nwid d).serial = "null"
    · rw [if_pos hd] at h
      simp at h
    · rw [if_neg hd] at h
      rw [ih _ _ _ _ h, claimdevice_bindOk]

theorem enrollLoop_no_bind : ∀ (l : List String) (s : Server) (nwid addr n t ab : String),
    ApiCall.bindNetwork n t ab ∉ (enrollLoop s nwid addr l).2 := by
  intro l
  induction l with
  | nil => intro s nwid addr n t ab h; exact absurd h (List.not_mem_nil _)
  | cons d rest ih =>
    intro s nwid addr n t ab h
    simp only [enrollLoop] at h
    by_cases hd : (getdeviceinfo (claimdevice s nwid d).1 nwid d).serial = "null"
    · rw [if_pos hd] at h
      rw [show ((none : Option Server), (claimdevice s nwid d).2).2 = (claimdevice s nwid d).2 from rfl,
          claimdevice_snd] at h
      simp at h
    · rw [if_neg hd] at h
      rcases List.mem_append.mp h with h1 | h1
      · rcases List.mem_append.mp h1 with h2 | h2
        · rcases List.mem_append.mp h2 with h3 | h3
          · rw [claimdevice_snd] at h3
            simp at h3
          · rw [setdevicedata_snd] at h3
            simp at h3
        · by_cases ha : addr ≠ "null"
          · rw [if_pos ha, setdevicedata_snd] at h2
            simp at h2
          · rw [if_neg ha] at h2
            exact absurd h2 (List.not_mem_nil _)
      · exact ih _ _ _ n t ab h1

theorem bindnw_fst (s : Server) (nwid templateid : String) (autobind : Bool) :
    (bindnw s nwid templateid autobind).1 = if s.bindOk then "ok" else "null" := rfl

theorem finishRun_bind (s : Server) (a : Args) (nwid tid : String) (serials models : List String) (calls : List ApiCall) (n t ab : String)
    (hmem : ApiCall.bindNetwork n t ab ∈ (finishRun s a nwid tid serials models calls).2)
    (hnc : ApiCall.bindNetwork n t ab ∉ calls) :
    ab = (if (deviceTypesOf models).ms then "true" else "false") ∧
    (finishRun s a nwid tid serials models calls).1 =
      (if s.bindOk = false ∧ a.modexisting ≠ "ignore_error" then Outcome.exited 2 else Outcome.finished) := by
  cases hen : (enrollLoop s nwid a.address (validserialsOf serials models)).1 with
  | none =>
    simp only [finishRun, hen] at hmem
    rcases List.mem_append.mp hmem with h1 | h1
    · exact absurd h1 hnc
    · exact absurd h1 (enrollLoop_no_bind _ _ _ _ _ _ _)
  | some s3 =>
    simp only [finishRun, hen] at hmem ⊢
    simp only [apply_ite Prod.snd, ite_self] at hmem
    rcases List.mem_append.mp hmem with h1 | h1
    · rcases List.mem_append.mp h1 with h2 | h2
      · exact absurd h2 hnc
      · exact absurd h2 (enrollLoop_no_bind _ _ _ _ _ _ _)
    · rw [bindnw_snd] at h1
      simp only [List.mem_singleton, ApiCall.bindNetwork.injEq] at h1
      obtain ⟨hn2, ht2, hab⟩ := h1
      have hsb : s3.bindOk = s.bindOk := enrollLoop_bindOk _ _ _ _ _ hen
      constructor
      · exact hab
      · simp only [apply_ite Prod.fst]
        cases hb : s.bindOk <;> simp [bindnw_fst, hsb, hb]

theorem main_bind_spec (s : Server) (a : Args) (n t ab : String)
    (hmem : ApiCall.bindNetwork n t ab ∈ (mainRun s a).2) :
    ab = (if (deviceTypesOf (runModels s a)).ms then "true" else "false") ∧
    (mainRun s a).1 =
      (if s.bindOk = false ∧ a.modexisting ≠ "ignore_error" then Outcome.exited 2 else Outcome.finished) := by
  simp only [mainRun] at hmem ⊢
  by_cases c1 : a.apikey = "null" ∨ a.orgname = "null" ∨ a.serial = "null" ∨ a.nwname = "null" ∨ a.template = "null"
  · rw [if_pos c1] at hmem
    exact absurd hmem (List.not_mem_nil _)
  · rw [if_neg c1] at hmem ⊢
    by_cases c2 : getorgid s a.orgname = "null"
    · rw [if_pos c2] at hmem
      exact absurd hmem (List.not_mem_nil _)
    · rw [if_neg c2] at hmem ⊢
      by_cases c3 : getshardurl s (getorgid s a.orgname) = "null"
      · rw [if_pos c3] at hmem
        exact absurd hmem (List.not_mem_nil _)
      · rw [if_neg c3] at hmem ⊢
        by_cases c4 : getnwid s a.nwname ≠ "null" ∧ a.modexisting ≠ "ignore_error"
        · rw [if_pos c4] at hmem
          exact absurd hmem (List.not_mem_nil _)
        · rw [if_neg c4] at hmem ⊢
          by_cases c5 : gettemplateid s a.template = "null"
          · rw [if_pos c5] at hmem
            exact absurd hmem (List.not_mem_nil _)
          · rw [if_neg c5] at hmem ⊢
            by_cases c6 : getnwid s a.nwname = "null"
            · rw [if_pos c6] at hmem ⊢
              by_cases c7 : (createnw (getorgid s a.orgname)
                  (classifyLoop (getorgid s a.orgname) s (pySplit a.serial ' ')).1
                  ⟨a.nwname, "Europe/Helsinki", (if a.nwtags ≠ "null" then a.nwtags else ""), getorgid s a.orgname,
                   buildNetworkTypeString
                     (deviceTypesOf (classifyLoop (getorgid s a.orgname) s (pySplit a.serial ' ')).2.1).mr
                     (deviceTypesOf (classifyLoop (getorgid s a.orgname) s (pySplit a.serial ' ')).2.1).ms
                     (deviceTypesOf (classifyLoop (getorgid s a.orgname) s (pySplit a.serial ' ')).2.1).mx⟩).1 = "null"
              · rw [if_pos c7] at hmem
                rcases List.mem_append.mp hmem with h1 | h1
                · exact absurd h1 (classifyLoop_no_bind _ _ _ _ _ _)
                · exact absurd h1 (createnw_no_bind _ _ _ _ _ _)
              · rw [if_neg c7] at hmem ⊢
                by_cases c8 : getnwid (createnw (getorgid s a.orgname)
                    (classifyLoop (getorgid s a.orgname) s (pySplit a.serial ' ')).1
                    ⟨a.nwname, "Europe/Helsinki", (if a.nwtags ≠ "null" then a.nwtags else ""), getorgid s a.orgname,
                     buildNetworkTypeString
                       (deviceTypesOf (classifyLoop (getorgid s a.orgname) s (pySplit a.serial ' ')).2.1).mr
                       (deviceTypesOf (classifyLoop (getorgid s a.orgname) s (pySplit a.serial ' ')).2.1).ms
                       (deviceTypesOf (classifyLoop (getorgid s a.orgname) s (pySplit a.serial ' ')).2.1).mx⟩).2.1 a.nwname = "null"
                · rw [if_pos c8] at hmem
                  rcases List.mem_append.mp hmem with h1 | h1
                  · exact absurd h1 (classifyLoop_no_bind _ _ _ _ _ _)
                  · exact absurd h1 (createnw_no_bind _ _ _ _ _ _)
                · rw [if_neg c8] at hmem ⊢
                  have hnc : ApiCall.bindNetwork n t ab ∉
                      (classifyLoop (getorgid s a.orgname) s (pySplit a.serial ' ')).2.2 ++
                      (createnw (getorgid s a.orgname)
                        (classifyLoop (getorgid s a.orgname) s (pySplit a.serial ' ')).1
                        ⟨a.nwname, "Europe/Helsinki", (if a.nwtags ≠ "null" then a.nwtags else ""), getorgid s a.orgname,
                         buildNetworkTypeString
                           (deviceTypesOf (classifyLoop (getorgid s a.orgname) s (pySplit a.serial ' ')).2.1).mr
                           (deviceTypesOf (classifyLoop (getorgid s a.orgname) s (pySplit a.serial ' ')).2.1).ms
                           (deviceTypesOf (classifyLoop (getorgid s a.orgname) s (pySplit a.serial ' ')).2.1).mx⟩).2.2 := by
                    intro hx
                    rcases List.mem_append.mp hx with h1 | h1
                    · exact absurd h1 (classifyLoop_no_bind _ _ _ _ _ _)
                    · exact absurd h1 (createnw_no_bind _ _ _ _ _ _)
                  have hfb := finishRun_bind _ _ _ _ _ _ _ _ _ _ hmem hnc
                  refine ⟨hfb.1, ?_⟩
                  rw [hfb.2, createnw_bindOk, classifyLoop_bindOk]
            · rw [if_neg c6] at hmem ⊢
              have hnc : ApiCall.bindNetwork n t ab ∉
                  (classifyLoop (getorgid s a.orgname) s (pySplit a.serial ' ')).2.2 :=
                classifyLoop_no_bind _ _ _ _ _ _
              have hfb := finishRun_bind _ _ _ _ _ _ _ _ _ _ hmem hnc
              refine ⟨hfb.1, ?_⟩
              rw [hfb.2, classifyLoop_bindOk]

theorem deviceTypesStep_ms (dt : DeviceTypes) (m : String) :
    (deviceTypesStep dt m).ms = true ↔ (dt.ms = true ∨ strTake m 2 = "MS") := by
  unfold deviceTypesStep
  by_cases h1 : strTake m 2 = "MX" ∨ strTake m 2 = "Z1"
  · rw [if_pos h1]
    simp only []
    constructor
    · exact Or.inl
    · rintro (h | h)
      · exact h
      · rcases h1 with h1 | h1 <;> rw [h] at h1 <;> exact absurd h1 (by decide)
  · rw [if_neg h1]
    by_cases h2 : strTake m 2 = "MS"
    · rw [if_pos h2]
      simp [h2]
    · rw [if_neg h2]
      by_cases h3 : strTake m 2 = "MR"
      · rw [if_pos h3]
        simp [h2]
      · rw [if_neg h3]
        simp [h2]

theorem foldl_deviceTypes_ms : ∀ (models : List String) (dt : DeviceTypes),
    (models.foldl deviceTypesStep dt).ms = true ↔
      (dt.ms = true ∨ ∃ m ∈ models, strTake m 2 = "MS") := by
  intro models
  induction models with
  | nil => intro dt; simp
  | cons m rest ih =>
    intro dt
    rw [List.foldl_cons, ih, deviceTypesStep_ms]
    constructor
    · rintro ((h | h) | h)
      · exact Or.inl h
      · exact Or.inr ⟨m, List.mem_cons_self _ _, h⟩
      · obtain ⟨x, hx, hx2⟩ := h
        exact Or.inr ⟨x, List.mem_cons_of_mem _ hx, hx2⟩
    · rintro (h | h)
      · exact Or.inl (Or.inl h)
      · obtain ⟨x, hx, hx2⟩ := h
        rcases List.mem_cons.mp hx with h4 | h4
        · exact Or.inl (Or.inr (h4 ▸ hx2))
        · exact Or.inr ⟨x, h4, hx2⟩

theorem deviceTypesOf_ms (models : List String) :
    (deviceTypesOf models).ms = true ↔ ∃ m ∈ models, strTake m 2 = "MS" := by
  unfold deviceTypesOf
  rw [foldl_deviceTypes_ms]
  simp

theorem classifyLoop_state (o : String) : ∀ (l : List String) (s : Server),
    (classifyLoop o s l).1 = orgClaimState s l := by
  intro l
  induction l with
  | nil => intro s; rfl
  | cons x xs ih =>
    intro s
    simp only [classifyLoop, orgClaimState, List.foldl_cons]
    exact ih _

theorem classifyLoop_append (o : String) : ∀ (pre xs : List String) (s : Server),
    (classifyLoop o s (pre ++ xs)).2.1 =
      (classifyLoop o s pre).2.1 ++ (classifyLoop o (orgClaimState s pre) xs).2.1 ∧
    (classifyLoop o s (pre ++ xs)).2.2 =
      (classifyLoop o s pre).2.2 ++ (classifyLoop o (orgClaimState s pre) xs).2.2 := by
  intro pre
  induction pre with
  | nil =>
    intro xs s
    constructor <;> rfl
  | cons p ps ih =>
    intro xs s
    simp only [List.cons_append, classifyLoop, orgClaimState, List.foldl_cons, List.append_eq]
    constructor
    · rw [(ih xs (claimdeviceorg s o p).1).1]
      rfl
    · rw [(ih xs (claimdeviceorg s o p).1).2]
      simp only [List.append_assoc]
      rfl

theorem validserials_splice : ∀ (pre ms1 : List String), ms1.length = pre.length →
    ∀ (serial : String) (rest ms2 : List String),
    validserialsOf (pre ++ serial :: rest) (ms1 ++ "null" :: ms2) =
      validserialsOf pre ms1 ++ validserialsOf rest ms2 := by
  intro pre
  induction pre with
  | nil =>
    intro ms1 hlen serial rest ms2
    have : ms1 = [] := List.length_eq_zero.mp hlen
    subst this
    simp only [List.nil_append, validserialsOf]
    rw [if_neg (by decide)]
  | cons p ps ih =>
    intro ms1 hlen serial rest ms2
    cases ms1 with
    | nil => simp at hlen
    | cons m ms1t =>
      simp only [List.length_cons, Nat.succ.injEq] at hlen
      simp only [List.cons_append, validserialsOf, List.append_eq]
      by_cases hm : m = "mr" ∨ m = "ms" ∨ m = "mx"
      · rw [if_pos hm, if_pos hm, ih ms1t hlen serial rest ms2]
        rfl
      · rw [if_neg hm, if_neg hm, ih ms1t hlen serial rest ms2]

theorem classifyLoop_invFail (o : String) : ∀ (l : List String) (s : Server),
    s.inventoryOk = false →
    (classifyLoop o s l).2.1 = l.map (fun _ => "null") ∧
    ∀ x ∈ l, ApiCall.claimLicenseOrg o x ∈ (classifyLoop o s l).2.2 := by
  intro l
  induction l with
  | nil => intro s h; exact ⟨rfl, by intro x hx; exact absurd hx (List.not_mem_nil _)⟩
  | cons x xs ih =>
    intro s h
    have h1 : (claimdeviceorg s o x).1.inventoryOk = false := by
      rw [claimdeviceorg_inventoryOk]; exact h
    have hdi : getorgdeviceinfo (claimdeviceorg s o x).1 x = ⟨"null", "null"⟩ := by
      unfold getorgdeviceinfo
      rw [h1]
      simp
    have ihr := ih (claimdeviceorg s o x).1 h1
    constructor
    · simp only [classifyLoop, List.map_cons]
      rw [hdi, ihr.1]
    · intro y hy
      simp only [classifyLoop]
      rcases List.mem_cons.mp hy with hy1 | hy1
      · subst hy1
        rw [hdi]
        simp only [if_pos rfl]
        rw [claimdeviceorg_snd]
        simp [claimlicenseorg]
      · have := ihr.2 y hy1
        exact List.mem_append_right _ this

theorem findLast_keep (serial : String) : ∀ (l : List InvRecord) (acc : Option InvRecord),
    (∀ r ∈ l, r.serial ≠ serial) →
    l.foldl (fun acc r => if r.serial == serial then some r else acc) acc = acc := by
  intro l
  induction l with
  | nil => intro acc h; rfl
  | cons r rs ih =>
    intro acc h
    have hr : (r.serial == serial) = false := by
      rw [beq_eq_false_iff_ne]
      exact h r (List.mem_cons_self _ _)
    have h2 : ∀ x ∈ rs, x.serial ≠ serial := fun x hx => h x (List.mem_cons_of_mem _ hx)
    rw [List.foldl_cons, if_neg (by rw [hr]; exact Bool.false_ne_true)]
    exact ih acc h2

/-- C1: the claim states that every device with a recognized model family is
    claimed into the target network and processed by enrollment, and that the
    two-serial scenario enrolls exactly two devices. The code refutes this: the
    valid-serials filter compares each full model string against the lowercase
    literals mr, ms, mx, which no inventory model matches, so in the scenario
    both devices classify into recognized families (wireless and switch), yet
    the valid-serials list is empty, no network-level device claim is issued
    and zero devices are enrolled while the run still finishes. -/
theorem claim1_filter_bug :
    (mainRun scenarioServer scenarioArgs).1 = Outcome.finished ∧
    ((mainRun scenarioServer scenarioArgs).2.countP isClaimDeviceNw) = 0 ∧
    runModels scenarioServer scenarioArgs = ["MR34-HW", "MS120-8"] ∧
    deviceTypesOf (runModels scenarioServer scenarioArgs) = ⟨false, true, true⟩ ∧
    validserialsOf (pySplit scenarioArgs.serial ' ') (runModels scenarioServer scenarioArgs) = [] := by
  decide

/-- C2 counterexample: with only the switch family present the network type
    string is the five characters of switch followed by a trailing space, not
    exactly switch as the claim states. -/
theorem claim2_counterexample :
    buildNetworkTypeString false true false = "switch " ∧
    buildNetworkTypeString false true false ≠ "switch" := by
  decide

/-- C2 amended: the builder appends a separator space whenever the string
    accumulated so far is nonempty, once before the switch slot and once before
    the appliance slot. All three families give exactly wireless space switch
    space appliance and no family gives the empty string, but a mix whose last
    absent slot follows a present word keeps a trailing space, and wireless
    without switch yields a double space. -/
theorem claim2_amended : ∀ mr ms mx : Bool,
    buildNetworkTypeString mr ms mx =
      match mr, ms, mx with
      | false, false, false => ""
      | false, false, true => "appliance"
      | false, true, false => "switch "
      | false, true, true => "switch appliance"
      | true, false, false => "wireless  "
      | true, false, true => "wireless  appliance"
      | true, true, false => "wireless switch "
      | true, true, true => "wireless switch appliance" := by
  intro mr ms mx
  cases mr <;> cases ms <;> cases mx <;> rfl

/-- C3 counterexample: with no pre-existing network and the systems manager
    type, the provisioning step returns the none outcome, which main maps to
    the diagnostic and exit code 2 — the run terminates at that point instead
    of proceeding, refuting the non-fatal part of the claim (no creation
    request is issued, which is the part that does hold). -/
theorem claim3_counterexample :
    (ensureNetwork "O1" scenarioServer smParams).1 = none ∧
    (ensureNetwork "O1" scenarioServer smParams).2.2 = [] ∧
    (createnw "O1" scenarioServer smParams).1 = "null" := by
  decide

/-- C3 amended: when creation is attempted with the systems manager type and no
    same-named network exists, createnw skips the creation with a warning and
    returns the null sentinel without issuing a create request, and main then
    treats that sentinel as fatal, terminating the run with exit code 2 rather
    than proceeding; moreover the type string derived from device mixes is
    never systems manager, so main cannot reach this path. -/
theorem claim3_amended (o : String) (s : Server) (p : NwParams)
    (h1 : p.type = "systems manager") (h2 : getnwid s p.name = "null") :
    createnw o s p = ("null", s, []) ∧
    (ensureNetwork o s p).1 = none ∧
    (ensureNetwork o s p).2.2 = [] ∧
    (∀ mr ms mx : Bool, buildNetworkTypeString mr ms mx ≠ "systems manager") := by
  have hc : createnw o s p = ("null", s, []) := by
    simp [createnw, h1, h2]
  refine ⟨hc, ?_, ?_, ?_⟩
  · simp [ensureNetwork, h2, hc]
  · simp [ensureNetwork, h2, hc]
  · intro mr ms mx
    cases mr <;> cases ms <;> cases mx <;> decide

theorem claim3_witness :
    (ensureNetwork "O1" scenarioServer smParams).1 = none ∧
    (∀ mr ms mx : Bool, buildNetworkTypeString mr ms mx ≠ "systems manager") :=
  ⟨(claim3_amended "O1" scenarioServer smParams rfl (by decide)).2.1,
   (claim3_amended "O1" scenarioServer smParams rfl (by decide)).2.2.2⟩

/-- C4: whenever a run issues the template bind request, the auto-bind value it
    carries is the string true exactly when some model in the classified batch
    has the first two characters MS. -/
theorem claim4_autobind_iff (s : Server) (a : Args) (n t ab : String)
    (hmem : ApiCall.bindNetwork n t ab ∈ (mainRun s a).2) :
    ab = "true" ↔ ∃ m ∈ runModels s a, strTake m 2 = "MS" := by
  have h := (main_bind_spec s a n t ab hmem).1
  cases hms : (deviceTypesOf (runModels s a)).ms with
  | true =>
    rw [hms, if_pos rfl] at h
    rw [h]
    constructor
    · intro _
      exact (deviceTypesOf_ms _).mp hms
    · intro _
      rfl
  | false =>
    rw [hms, if_neg Bool.false_ne_true] at h
    rw [h]
    constructor
    · intro hx
      exact absurd hx (by decide)
    · intro hex
      have hx := (deviceTypesOf_ms _).mpr hex
      rw [hms] at hx
      exact Bool.noConfusion hx

theorem claim4_witness :
    ("true" = "true" ↔ ∃ m ∈ runModels scenarioServer scenarioArgs, strTake m 2 = "MS") :=
  claim4_autobind_iff scenarioServer scenarioArgs "N0" "T1" "true" (by decide)

/-- C5: when all required arguments are present, the organization and shard
    resolutions succeed, the ignore-existing mode is not set and the network
    name lookup finds an existing network, the run exits with code 2 and its
    trace of POST and PUT requests is empty: no creation call and no
    enrollment call was issued. -/
theorem claim5_exists_fatal (s : Server) (a : Args)
    (h1 : a.apikey ≠ "null") (h2 : a.orgname ≠ "null") (h3 : a.serial ≠ "null")
    (h4 : a.nwname ≠ "null") (h5 : a.template ≠ "null")
    (h6 : a.modexisting ≠ "ignore_error")
    (h7 : getorgid s a.orgname ≠ "null")
    (h8 : getshardurl s (getorgid s a.orgname) ≠ "null")
    (h9 : getnwid s a.nwname ≠ "null") :
    mainRun s a = (Outcome.exited 2, []) := by
  simp only [mainRun]
  rw [if_neg (by simp [h1, h2, h3, h4, h5]), if_neg h7, if_neg h8, if_pos ⟨h9, h6⟩]

theorem claim5_witness : mainRun existingNwServer scenarioArgs = (Outcome.exited 2, []) :=
  claim5_exists_fatal existingNwServer scenarioArgs (by decide) (by decide) (by decide)
    (by decide) (by decide) (by decide) (by decide) (by decide) (by decide)

/-- C6: under the ignore-existing policy the provisioning step is idempotent.
    When the name lookup already finds a network, the returned id is the found
    id and no request at all is issued; whenever a provisioning step succeeds
    with id i, running it again returns the same id i, leaves the backend
    unchanged and issues no request, and the two runs together issue at most
    one network-creation request. -/
theorem claim6_idempotent (o : String) (s : Server) (p : NwParams) (i : String)
    (h : (ensureNetwork o s p).1 = some i) :
    (getnwid s p.name ≠ "null" → i = getnwid s p.name ∧ (ensureNetwork o s p).2.2 = []) ∧
    ensureNetwork o (ensureNetwork o s p).2.1 p = (some i, (ensureNetwork o s p).2.1, []) ∧
    ((ensureNetwork o s p).2.2 ++
      (ensureNetwork o (ensureNetwork o s p).2.1 p).2.2).countP isCreateNetwork ≤ 1 := by
  by_cases h0 : getnwid s p.name = "null"
  · by_cases hcr : (createnw o s p).1 = "null"
    · exfalso
      have he : (ensureNetwork o s p).1 = none := by
        simp only [ensureNetwork]
        rw [if_pos h0, if_pos hcr]
      rw [he] at h
      exact Option.noConfusion h
    · by_cases hl2 : getnwid (createnw o s p).2.1 p.name = "null"
      · exfalso
        have he : (ensureNetwork o s p).1 = none := by
          simp only [ensureNetwork]
          rw [if_pos h0, if_neg hcr, if_pos hl2]
        rw [he] at h
        exact Option.noConfusion h
      · have he : ensureNetwork o s p =
            (some (getnwid (createnw o s p).2.1 p.name), (createnw o s p).2.1, (createnw o s p).2.2) := by
          simp only [ensureNetwork]
          rw [if_pos h0, if_neg hcr, if_neg hl2]
        have hi : getnwid (createnw o s p).2.1 p.name = i := by
          apply Option.some.inj
          rw [← h, he]
        refine ⟨?_, ?_, ?_⟩
        · intro hne
          exact absurd h0 hne
        · rw [he]
          show ensureNetwork o (createnw o s p).2.1 p = (some i, (createnw o s p).2.1, [])
          simp only [ensureNetwork]
          rw [if_neg hl2, hi]
        · rw [he]
          show ((createnw o s p).2.2 ++
            (ensureNetwork o (createnw o s p).2.1 p).2.2).countP isCreateNetwork ≤ 1
          have h2nd : (ensureNetwork o (createnw o s p).2.1 p).2.2 = [] := by
            simp only [ensureNetwork]
            rw [if_neg hl2]
          rw [h2nd, List.append_nil]
          exact createnw_count o s p
  · have he : ensureNetwork o s p = (some (getnwid s p.name), s, []) := by
      simp only [ensureNetwork]
      rw [if_neg h0]
    have hi : getnwid s p.name = i := by
      apply Option.some.inj
      rw [← h, he]
    refine ⟨?_, ?_, ?_⟩
    · intro _
      refine ⟨hi.symm, ?_⟩
      rw [he]
    · rw [he]
      show ensureNetwork o s p = (some i, s, [])
      rw [he, hi]
    · rw [he]
      show (([] : List ApiCall) ++ (ensureNetwork o s p).2.2).countP isCreateNetwork ≤ 1
      rw [he]
      simp

theorem claim6_witness :
    ensureNetwork "O1" (ensureNetwork "O1" scenarioServer plainParams).2.1 plainParams =
      (some "N0", (ensureNetwork "O1" scenarioServer plainParams).2.1, []) :=
  (claim6_idempotent "O1" scenarioServer plainParams "N0" (by decide)).2.1

/-- C7: the device-type classification step looks only at the first two
    characters of the model string, with case-sensitive matching: MX or Z1 set
    exactly the appliance flag, MS exactly the switch flag, MR exactly the
    wireless flag, any other two-character start changes nothing, and two model
    strings sharing their first two characters classify identically. -/
theorem claim7_classification (dt : DeviceTypes) (r : String) :
    ((strTake r 2 = "MX" ∨ strTake r 2 = "Z1") → deviceTypesStep dt r = { dt with mx := true }) ∧
    (strTake r 2 = "MS" → deviceTypesStep dt r = { dt with ms := true }) ∧
    (strTake r 2 = "MR" → deviceTypesStep dt r = { dt with mr := true }) ∧
    (strTake r 2 ≠ "MX" → strTake r 2 ≠ "Z1" → strTake r 2 ≠ "MS" → strTake r 2 ≠ "MR" →
      deviceTypesStep dt r = dt) ∧
    (∀ r2 : String, strTake r2 2 = strTake r 2 → deviceTypesStep dt r2 = deviceTypesStep dt r) := by
  refine ⟨?_, ?_, ?_, ?_, ?_⟩
  · intro h
    unfold deviceTypesStep
    rw [if_pos h]
  · intro h
    unfold deviceTypesStep
    rw [if_neg (by rw [h]; decide), if_pos h]
  · intro h
    unfold deviceTypesStep
    rw [if_neg (by rw [h]; decide), if_neg (by rw [h]; decide), if_pos h]
  · intro hmx hz hms hmr
    unfold deviceTypesStep
    rw [if_neg (by rintro (hc | hc); exacts [hmx hc, hz hc]), if_neg hms, if_neg hmr]
  · intro r2 h
    unfold deviceTypesStep
    rw [h]

theorem claim7_witness : deviceTypesStep ⟨false, false, false⟩ "MX64" = ⟨true, false, false⟩ :=
  (claim7_classification ⟨false, false, false⟩ "MX64").1 (Or.inl (by decide))

/-- C8: whenever the inventory lookup that follows the organization-level claim
    of a serial returns the full null sentinel record, the run issues a license
    claim for that same serial, the model recorded at its position is the null
    string, the null model contributes no device-type flag, and the
    valid-serials filter drops exactly that position. -/
theorem claim8_license_path (o : String) (s : Server) (pre : List String) (serial : String) (rest : List String)
    (h : getorgdeviceinfo (claimdeviceorg (orgClaimState s pre) o serial).1 serial = ⟨"null", "null"⟩) :
    ApiCall.claimLicenseOrg o serial ∈ (classifyLoop o s (pre ++ serial :: rest)).2.2 ∧
    (classifyLoop o s (pre ++ serial :: rest)).2.1 =
      (classifyLoop o s pre).2.1 ++
        "null" :: (classifyLoop o (claimdeviceorg (orgClaimState s pre) o serial).1 rest).2.1 ∧
    (classifyLoop o s pre).2.1.length = pre.length ∧
    (∀ dt : DeviceTypes, deviceTypesStep dt "null" = dt) ∧
    (∀ ms1 ms2 : List String, ms1.length = pre.length →
      validserialsOf (pre ++ serial :: rest) (ms1 ++ "null" :: ms2) =
        validserialsOf pre ms1 ++ validserialsOf rest ms2) := by
  have happ := classifyLoop_append o pre (serial :: rest) s
  have hstep1 : (classifyLoop o (orgClaimState s pre) (serial :: rest)).2.1 =
      "null" :: (classifyLoop o (claimdeviceorg (orgClaimState s pre) o serial).1 rest).2.1 := by
    simp only [classifyLoop]
    rw [h]
  have hstep2 : (classifyLoop o (orgClaimState s pre) (serial :: rest)).2.2 =
      ([ApiCall.claimDeviceOrg o serial] ++ [ApiCall.claimLicenseOrg o serial]) ++
        (classifyLoop o (claimdeviceorg (orgClaimState s pre) o serial).1 rest).2.2 := by
    simp only [classifyLoop]
    rw [claimdeviceorg_snd, h]
    rfl
  refine ⟨?_, ?_, classifyLoop_length o pre s, ?_, ?_⟩
  · rw [happ.2, hstep2]
    exact List.mem_append_right _
      (List.mem_append_left _ (List.mem_append_right _ (List.mem_singleton.mpr rfl)))
  · rw [happ.1, hstep1]
  · intro dt
    unfold deviceTypesStep
    rw [if_neg (by decide), if_neg (by decide), if_neg (by decide)]
  · intro ms1 ms2 hl
    exact validserials_splice pre ms1 hl serial rest ms2

theorem claim8_witness :
    ApiCall.claimLicenseOrg "O1" "LIC-KEY" ∈ (classifyLoop "O1" scenarioServer ["LIC-KEY"]).2.2 :=
  (claim8_license_path "O1" scenarioServer [] "LIC-KEY" [] (by decide)).1

/-- C9: for any run whose trace contains the bind request, when the bind call
    fails the run terminates with exit code 2 exactly when the ignore-existing
    mode is not set; with the mode set the run still reaches the final
    End-of-script state. -/
theorem claim9_bind_fatality (s : Server) (a : Args) (n t ab : String)
    (hbind : s.bindOk = false)
    (hmem : ApiCall.bindNetwork n t ab ∈ (mainRun s a).2) :
    (a.modexisting = "ignore_error" → (mainRun s a).1 = Outcome.finished) ∧
    (a.modexisting ≠ "ignore_error" → (mainRun s a).1 = Outcome.exited 2) := by
  have h := (main_bind_spec s a n t ab hmem).2
  constructor
  · intro hm
    rw [h, if_neg]
    intro hc
    exact hc.2 hm
  · intro hm
    rw [h, if_pos ⟨hbind, hm⟩]

theorem claim9_witness : (mainRun bindFailServer ignoreArgs).1 = Outcome.finished :=
  (claim9_bind_fatality bindFailServer ignoreArgs "N0" "T1" "true" rfl (by decide)).1 rfl

/-- C10: a failed inventory listing makes the per-serial lookup return exactly
    the same null sentinel as a genuinely absent serial, and consequently, when
    the listing keeps failing, every serial of the batch is recorded with the
    null model and receives a license-claim call, with no distinction between
    upstream failure and absence. -/
theorem claim10_listing_failure (o : String) (s : Server) (serial : String) (serials : List String) :
    (s.inventoryOk = false → getorgdeviceinfo s serial = ⟨"null", "null"⟩) ∧
    (s.inventoryOk = true → (∀ r ∈ s.inventory, r.serial ≠ serial) →
      getorgdeviceinfo s serial = ⟨"null", "null"⟩) ∧
    (s.inventoryOk = false →
      (classifyLoop o s serials).2.1 = serials.map (fun _ => "null") ∧
      ∀ x ∈ serials, ApiCall.claimLicenseOrg o x ∈ (classifyLoop o s serials).2.2) := by
  refine ⟨?_, ?_, ?_⟩
  · intro h
    unfold getorgdeviceinfo
    rw [h]
    rfl
  · intro h habs
    unfold getorgdeviceinfo
    rw [h, findLast_keep serial s.inventory none habs]
    rfl
  · intro h
    exact classifyLoop_invFail o serials s h

theorem claim10_witness :
    getorgdeviceinfo invFailServer "MR34-AAAA" = ⟨"null", "null"⟩ ∧
    ∀ x ∈ ["AAAA-BBBB", "CCCC-DDDD"],
      ApiCall.claimLicenseOrg "O1" x ∈ (classifyLoop "O1" invFailServer ["AAAA-BBBB", "CCCC-DDDD"]).2.2 :=
  ⟨(claim10_listing_failure "O1" invFailServer "MR34-AAAA" ["AAAA-BBBB", "CCCC-DDDD"]).1 rfl,
   ((claim10_listing_failure "O1" invFailServer "MR34-AAAA" ["AAAA-BBBB", "CCCC-DDDD"]).2.2 rfl).2⟩
